import Mathlib

/-!
Shallow embedding of `src/utils/transaction/serializeTransaction.ts` from the
viem repository: the transaction-variant serializers, the shared signature
tail encoder `toYParitySignatureArray`, and the dispatcher
`serializeTransaction`.

Byte strings (`Hex` values such as `'0x...'` in the source) are modelled as
lists of bytes (`List Nat`); the empty placeholder `'0x'` is the empty list.
External collaborators that are not part of the source tree (`toHex`, `trim`,
`toRlp`, `concatHex`, `serializeAccessList`) are modelled from the spec's
contracts (§6); the per-variant assertion collaborators, whose checks the spec
leaves abstract, are taken as parameters of the serializers.
-/

namespace Viem

/-- A hex byte string: a sequence of bytes. `'0x'` is `[]`. -/
abbrev Hex := List Nat

/-- Fuel-driven worker for `toHex`: big-endian base-256 digits of `n`. -/
def toHexAux : Nat → Nat → List Nat
  | 0, _ => []
  | fuel + 1, n => if n = 0 then [] else toHexAux fuel (n / 256) ++ [n % 256]

/-- Modelled from the spec: `toHexMinimal(number)` converts an unsigned
integer to its minimal big-endian byte representation; zero encodes to the
empty placeholder. (The source imports this as `toHex` from
`encoding/toHex.js`, which is not in the source tree.) -/
def toHex (n : Nat) : Hex := toHexAux n n

/-- `toHex` applied to a bigint value (the source applies `toHex` to the
legacy recovery value, a `bigint`); every value it is applied to in this
development is non-negative. -/
def toHexI (i : Int) : Hex := toHex i.toNat

/-- Modelled from the spec: `trimLeadingZeros(bytes)` strips leading zero
bytes from a fixed-width byte value. (The source imports this as `trim` from
`data/trim.js`, which is not in the source tree.) -/
def trim (bs : Hex) : Hex := bs.dropWhile (· == 0)

/-- `concatHex` from `data/concat.js` (not in the source tree): concatenation
of hex byte strings. -/
def concatHex (xs : List Hex) : Hex := xs.flatten

/-- A recursive array of hex byte strings, the argument shape accepted by the
`toRlp` collaborator. -/
inductive RlpItem where
  | bytes : Hex → RlpItem
  | list : List RlpItem → RlpItem

/-- Length header of the RLP encoding: a single byte `offset + len` for short
payloads, otherwise a length-of-length byte followed by the big-endian length. -/
def rlpHeader (len offset : Nat) : List Nat :=
  if len ≤ 55 then [offset + len]
  else (offset + 55 + (toHex len).length) :: toHex len

mutual
/-- Modelled from the spec: `encodeList` / `toRlp` (imported from
`encoding/toRlp.js`, not in the source tree) produces the length-prefixed
binary encoding of a nested byte-sequence structure per the RLP scheme. -/
def toRlp : RlpItem → List Nat
  | .bytes bs =>
    if bs.length = 1 ∧ bs.head! < 128 then bs
    else rlpHeader bs.length 128 ++ bs
  | .list items =>
    let payload := toRlpList items
    rlpHeader payload.length 192 ++ payload

/-- Concatenated RLP encodings of a list of items (the payload of a list). -/
def toRlpList : List RlpItem → List Nat
  | [] => []
  | i :: rest => toRlp i ++ toRlpList rest
end

/-- One entry of an EIP-2930 access list: an address together with its
storage keys (`types/transaction.ts`, `AccessList`). -/
structure AccessListItem where
  address : Hex
  storageKeys : List Hex
deriving DecidableEq

/-- Modelled from the spec: `encodeAccessList(list)` (imported as
`serializeAccessList` from `serializeAccessList.js`, not in the source tree)
encodes the access-list structure per its nested-list convention:
`[[address, [storageKey, ...]], ...]`; an absent access list encodes as the
empty list. -/
def serializeAccessList (accessList : Option (List AccessListItem)) : RlpItem :=
  .list ((accessList.getD []).map fun item =>
    .list [.bytes item.address, .list (item.storageKeys.map RlpItem.bytes)])

/-- The runtime transaction record handed to the serializers
(`TransactionSerializableGeneric` in `types/transaction.ts`): one record shape
with every variant-specific field optional. Quantities (`bigint` in the
source) are non-negative integers; `chainId` (a `number`) likewise. The
signature fields `r`, `s`, `v`, `yParity` may sit directly on the record
(`TransactionSerializableBase` extends `Partial<Signature>`). -/
structure Transaction where
  chainId : Option Nat := none
  nonce : Option Nat := none
  gas : Option Nat := none
  gasPrice : Option Nat := none
  maxFeePerGas : Option Nat := none
  maxPriorityFeePerGas : Option Nat := none
  maxFeePerBlobGas : Option Nat := none
  «to» : Option Hex := none
  value : Option Nat := none
  data : Option Hex := none
  accessList : Option (List AccessListItem) := none
  blobVersionedHashes : Option (List Hex) := none
  blobs : Option (List Hex) := none
  kzgCommitments : Option (List Hex) := none
  kzgProofs : Option (List Hex) := none
  r : Option Hex := none
  s : Option Hex := none
  v : Option Int := none
  yParity : Option Nat := none
deriving DecidableEq

/-- The runtime view of the optional signature argument of the typed-variant
serializers and of `toYParitySignatureArray` (`Signature & { yParity?: Hex }`
in the source): each field may be absent at runtime and the function checks
this explicitly. -/
structure Signature where
  r : Option Hex := none
  s : Option Hex := none
  v : Option Int := none
  yParity : Option Nat := none
deriving DecidableEq

/-- The `Signature` type of `types/misc.ts` (not in the source tree) as the
legacy serializer consumes it: `r`, `s` and `v` are present (the legacy
encoder dereferences all three without undefined checks). -/
structure FullSignature where
  r : Hex
  s : Hex
  v : Int
deriving DecidableEq

/-- `FullSignature` viewed as the runtime `Signature` record (used by the
dispatcher when handing its `signature?: Signature` argument to the typed
serializers). -/
def FullSignature.toSignature (sig : FullSignature) : Signature :=
  { r := some sig.r, s := some sig.s, v := some sig.v }

/-- Errors of the serializers: a failure of an external per-variant
assertion collaborator (spec §6/§7(a)), or the `InvalidLegacyVError` thrown
by the legacy encoder (§7(b)), carrying the offending recovery value. -/
inductive SerializeError where
  | assertionFailure : String → SerializeError
  | invalidLegacyV : Int → SerializeError
deriving DecidableEq

/-- Embeds the source's JS-truthiness pattern `x ? toHex(x) : '0x'` for an
optional numeric field: absent and zero both encode to the empty placeholder. -/
def numOrEmpty (n : Option Nat) : Hex :=
  match n with
  | some k => if k = 0 then [] else toHex k
  | none => []

/-- The signature-field source selected by `toYParitySignatureArray`
(line 312: `const { r, s, v, yParity } = signature ?? transaction`): the
explicit signature when supplied, else the record's own fields — the fallback
is whole-object, not per-field. -/
def sigSource (transaction : Transaction) (signature : Option Signature) :
    Signature :=
  match signature with
  | some sg => sg
  | none =>
    { r := transaction.r, s := transaction.s, v := transaction.v,
      yParity := transaction.yParity }

/-- `toYParitySignatureArray(transaction, signature?)` (lines 308–325): the
zero- or three-element signature tail appended to a typed variant's field
list. -/
def toYParitySignatureArray (transaction : Transaction)
    (signature : Option Signature) : List RlpItem :=
  let src := sigSource transaction signature
  match src.r with
  | none => []
  | some r =>
    match src.s with
    | none => []
    | some s =>
      if src.v = none ∧ src.yParity = none then []
      else
        let yParity :=
          match src.yParity, src.v with
          | some p, _ => toHex p
          | none, some w =>
            if w = 0 then []
            else if w = 1 then toHex 1
            else if w = 27 then [] else toHex 1
          | none, none => toHex 1
        [.bytes yParity, .bytes (trim r), .bytes (trim s)]

/-- The legacy recovery-value computation (the inner closure of
`serializeTransactionLegacy`, lines 272–288), as a pure function of the
record's chain id (defaulted to 0) and the supplied signature's `v`. -/
def legacyV (chainId : Nat) (sigV : Int) : Except SerializeError Int :=
  if chainId > 0 then
    .ok (2 * (chainId : Int) + (35 + sigV - 27))
  else if sigV ≥ 35 then
    let inferredChainId := (sigV - 35) / 2
    if inferredChainId > 0 then .ok sigV
    else .ok (27 + if sigV = 35 then 0 else 1)
  else
    let v : Int := 27 + (if sigV = 27 then 0 else 1)
    if sigV ≠ v then .error (.invalidLegacyV sigV)
    else .ok v

/-- `serializeTransactionLegacy(transaction, signature?)` (lines 254–306).
The external `assertTransactionLegacy` collaborator is a parameter returning
`some message` when it rejects the record. -/
def serializeTransactionLegacy (assert : Transaction → Option String)
    (transaction : Transaction) (signature : Option FullSignature) :
    Except SerializeError Hex :=
  let chainId := transaction.chainId.getD 0
  match assert transaction with
  | some e => .error (.assertionFailure e)
  | none =>
    let base : List RlpItem :=
      [.bytes (numOrEmpty transaction.nonce),
       .bytes (numOrEmpty transaction.gasPrice),
       .bytes (numOrEmpty transaction.gas),
       .bytes (transaction.to.getD []),
       .bytes (numOrEmpty transaction.value),
       .bytes (transaction.data.getD [])]
    match signature with
    | some sig =>
      match legacyV chainId sig.v with
      | .error e => .error e
      | .ok v =>
        .ok (toRlp (.list (base ++
          [.bytes (toHexI v), .bytes sig.r, .bytes sig.s])))
    | none =>
      if chainId > 0 then
        .ok (toRlp (.list (base ++ [.bytes (toHex chainId), .bytes [], .bytes []])))
      else
        .ok (toRlp (.list base))

/-- `serializeTransactionEIP1559(transaction, signature?)` (lines 170–207). -/
def serializeTransactionEIP1559 (assert : Transaction → Option String)
    (transaction : Transaction) (signature : Option Signature) :
    Except SerializeError Hex :=
  match assert transaction with
  | some e => .error (.assertionFailure e)
  | none =>
    let serializedAccessList := serializeAccessList transaction.accessList
    let serializedTransaction : List RlpItem :=
      [.bytes (toHex (transaction.chainId.getD 0)),
       .bytes (numOrEmpty transaction.nonce),
       .bytes (numOrEmpty transaction.maxPriorityFeePerGas),
       .bytes (numOrEmpty transaction.maxFeePerGas),
       .bytes (numOrEmpty transaction.gas),
       .bytes (transaction.to.getD []),
       .bytes (numOrEmpty transaction.value),
       .bytes (transaction.data.getD []),
       serializedAccessList] ++
      toYParitySignatureArray transaction signature
    .ok (concatHex [[0x02], toRlp (.list serializedTransaction)])

/-- `serializeTransactionEIP2930(transaction, signature?)` (lines 218–245). -/
def serializeTransactionEIP2930 (assert : Transaction → Option String)
    (transaction : Transaction) (signature : Option Signature) :
    Except SerializeError Hex :=
  match assert transaction with
  | some e => .error (.assertionFailure e)
  | none =>
    let serializedAccessList := serializeAccessList transaction.accessList
    let serializedTransaction : List RlpItem :=
      [.bytes (toHex (transaction.chainId.getD 0)),
       .bytes (numOrEmpty transaction.nonce),
       .bytes (numOrEmpty transaction.gasPrice),
       .bytes (numOrEmpty transaction.gas),
       .bytes (transaction.to.getD []),
       .bytes (numOrEmpty transaction.value),
       .bytes (transaction.data.getD []),
       serializedAccessList] ++
      toYParitySignatureArray transaction signature
    .ok (concatHex [[0x01], toRlp (.list serializedTransaction)])

/-- `serializeTransactionEIP4844(transaction, signature?)` (lines 113–159).
When raw `blobs` are present (any array, also the empty one, is truthy in the
source), the outer encoding is the network-wrapper four-element list; the
commitment and proof sequences are assumed present alongside the blobs
(spec §3 invariant). -/
def serializeTransactionEIP4844 (assert : Transaction → Option String)
    (transaction : Transaction) (signature : Option Signature) :
    Except SerializeError Hex :=
  match assert transaction with
  | some e => .error (.assertionFailure e)
  | none =>
    let serializedAccessList := serializeAccessList transaction.accessList
    let serializedTransaction : List RlpItem :=
      [.bytes (toHex (transaction.chainId.getD 0)),
       .bytes (numOrEmpty transaction.nonce),
       .bytes (numOrEmpty transaction.maxPriorityFeePerGas),
       .bytes (numOrEmpty transaction.maxFeePerGas),
       .bytes (numOrEmpty transaction.gas),
       .bytes (transaction.to.getD []),
       .bytes (numOrEmpty transaction.value),
       .bytes (transaction.data.getD []),
       serializedAccessList,
       .bytes (numOrEmpty transaction.maxFeePerBlobGas),
       .list ((transaction.blobVersionedHashes.getD []).map RlpItem.bytes)] ++
      toYParitySignatureArray transaction signature
    let body :=
      match transaction.blobs with
      | some blobs =>
        toRlp (.list
          [.list serializedTransaction,
           .list (blobs.map RlpItem.bytes),
           .list ((transaction.kzgCommitments.getD []).map RlpItem.bytes),
           .list ((transaction.kzgProofs.getD []).map RlpItem.bytes)])
      | none => toRlp (.list serializedTransaction)
    .ok (concatHex [[0x03], body])

/-- The four external assertion collaborators consumed by the dispatcher
(`assertTransaction*` from `assertTransaction.js`, not in the source tree). -/
structure Asserts where
  eip1559 : Transaction → Option String
  eip2930 : Transaction → Option String
  eip4844 : Transaction → Option String
  legacy : Transaction → Option String

/-- `serializeTransaction(transaction, signature?)` (lines 70–102): resolve
the variant through the collaborating inference function (`getTransactionType`
from `getTransactionType.js`, not in the source tree, taken here as the
parameter `getType`), then dispatch down the type-check cascade, defaulting to
the legacy encoder. -/
def serializeTransaction (getType : Transaction → String) (asserts : Asserts)
    (transaction : Transaction) (signature : Option FullSignature) :
    Except SerializeError Hex :=
  let type := getType transaction
  if type = "eip1559" then
    serializeTransactionEIP1559 asserts.eip1559 transaction
      (signature.map FullSignature.toSignature)
  else if type = "eip2930" then
    serializeTransactionEIP2930 asserts.eip2930 transaction
      (signature.map FullSignature.toSignature)
  else if type = "eip4844" then
    serializeTransactionEIP4844 asserts.eip4844 transaction
      (signature.map FullSignature.toSignature)
  else
    serializeTransactionLegacy asserts.legacy transaction signature

/-! ## Helper lemmas -/

theorem concatHex_pair (b : Nat) (l : Hex) : concatHex [[b], l] = b :: l := by
  simp [concatHex]

theorem legacyV_error_iff (chainId : Nat) (sigV : Int) (w : Int) :
    legacyV chainId sigV = .error (.invalidLegacyV w) ↔
      chainId = 0 ∧ sigV = w ∧ sigV < 35 ∧ sigV ≠ 27 ∧ sigV ≠ 28 := by
  unfold legacyV
  by_cases h1 : chainId > 0
  · simp [h1]
    omega
  · rw [if_neg h1]
    by_cases h2 : sigV ≥ 35
    · rw [if_pos h2]
      by_cases h3 : (sigV - 35) / 2 > 0 <;> simp [h3] <;> omega
    · rw [if_neg h2]
      by_cases h4 : sigV = 27
      · simp [h4]
      · by_cases h5 : sigV = 28 <;> simp [h4, h5]
        omega

/-! ## Claims -/

/-- C1: for a legacy record with a supplied signature, the recovery value is
computed by three mutually exclusive rules in order: with `chainId > 0`,
`v = chainId*2 + 35 + (sigV - 27)`; else with `sigV ≥ 35` and inferred chain
id `(sigV - 35) / 2`, `v = sigV` when the inferred chain id is positive and
`27`/`28` (according to `sigV = 35` or not) otherwise; else `v` normalizes to
`27` for `sigV = 27` and `28` for `sigV = 28`. Concretely, `(1, 27) ↦ 37`,
`(0, 37) ↦ 37`, `(0, 35) ↦ 27`. -/
theorem legacyV_rules (chainId : Nat) (sigV : Int) :
    (0 < chainId →
      legacyV chainId sigV = .ok ((chainId : Int) * 2 + 35 + (sigV - 27)))
    ∧ (chainId = 0 → 35 ≤ sigV →
        (0 < (sigV - 35) / 2 → legacyV chainId sigV = .ok sigV)
        ∧ ((sigV - 35) / 2 = 0 →
            legacyV chainId sigV = .ok (if sigV = 35 then 27 else 28)))
    ∧ (chainId = 0 → sigV = 27 → legacyV chainId sigV = .ok 27)
    ∧ (chainId = 0 → sigV = 28 → legacyV chainId sigV = .ok 28)
    ∧ legacyV 1 27 = .ok 37 ∧ legacyV 0 37 = .ok 37 ∧ legacyV 0 35 = .ok 27 := by
  refine ⟨?_, ?_, ?_, ?_, rfl, rfl, rfl⟩
  · intro h
    unfold legacyV
    rw [if_pos h]
    congr 1
    ring
  · intro hc h35
    subst hc
    constructor
    · intro hpos
      unfold legacyV
      rw [if_neg (by omega), if_pos (by omega)]
      simp only []
      rw [if_pos hpos]
    · intro hzero
      unfold legacyV
      rw [if_neg (by omega), if_pos (by omega)]
      simp only []
      rw [if_neg (by omega)]
      by_cases h : sigV = 35 <;> simp [h]
  · intro hc hv
    subst hc; subst hv; rfl
  · intro hc hv
    subst hc; subst hv; rfl

/-- Witness for C1 at `chainId = 1`, `sigV = 27`. -/
theorem legacyV_rules_witness : legacyV 1 27 = .ok 37 := by
  have h := (legacyV_rules 1 27).1 (by norm_num)
  simpa using h

/-- C2 (counterexample to the claim as stated): at the legacy recovery value
`v = 35` — an even chain-id offset, for which the claim predicts the empty
placeholder — the encoder emits hex `1`, which is not the empty placeholder. -/
theorem toYParity_even_offset_counterexample :
    toYParitySignatureArray {} (some { r := some [1], s := some [1], v := some 35 })
      = [.bytes (toHex 1), .bytes [1], .bytes [1]]
    ∧ toHex 1 ≠ ([] : Hex) :=
  ⟨rfl, by decide⟩

/-- C2 (amended): `toYParitySignatureArray` returns the empty list whenever
the selected signature source has `r` undefined, `s` undefined, or both `v`
and `yParity` undefined; otherwise it returns exactly
`[encoded-parity, trimmed-r, trimmed-s]`, where the encoded parity is
`yParity`'s hex value when an explicit parity bit is present, the empty
placeholder when `v` is `0` or `27`, and hex `1` for every other `v`. -/
theorem toYParity_characterization (transaction : Transaction)
    (signature : Option Signature) :
    toYParitySignatureArray transaction signature =
      match (sigSource transaction signature).r, (sigSource transaction signature).s,
          (sigSource transaction signature).v, (sigSource transaction signature).yParity with
      | none, _, _, _ => []
      | _, none, _, _ => []
      | some _, some _, none, none => []
      | some r, some s, _, some p =>
          [.bytes (toHex p), .bytes (trim r), .bytes (trim s)]
      | some r, some s, some w, none =>
          [.bytes (if w = 0 ∨ w = 27 then [] else toHex 1),
           .bytes (trim r), .bytes (trim s)] := by
  unfold toYParitySignatureArray
  rcases hr : (sigSource transaction signature).r with _ | r
  · simp [hr]
  rcases hs : (sigSource transaction signature).s with _ | s
  · simp [hr, hs]
  rcases hv : (sigSource transaction signature).v with _ | w <;>
    rcases hp : (sigSource transaction signature).yParity with _ | p
  · simp [hr, hs, hv, hp]
  · simp [hr, hs, hv, hp]
  · simp only [hr, hs, hv, hp]
    rw [if_neg (by simp)]
    by_cases h0 : w = 0
    · simp [h0]
    by_cases h1 : w = 1
    · simp [h0, h1, toHex, toHexAux]
    by_cases h27 : w = 27 <;> simp [h0, h1, h27]
  · simp [hr, hs, hv, hp]

/-- C3: serialization yields the invalid-legacy-recovery-value error, carrying
the offending `signature.v`, exactly when the legacy serializer is given a
signature, its assertion collaborator accepts the record, the chain id is
absent or `0`, and `signature.v` is below `35` and neither `27` nor `28`; the
three typed serializers never yield this error. (As the serializers produce
`Except` values, no bytes accompany the error.) -/
theorem invalidLegacyV_characterization (assert : Transaction → Option String)
    (transaction : Transaction) (signature : Option FullSignature) (w : Int) :
    (serializeTransactionLegacy assert transaction signature
        = .error (.invalidLegacyV w) ↔
      assert transaction = none
      ∧ (∃ sig, signature = some sig ∧ sig.v = w)
      ∧ (transaction.chainId = none ∨ transaction.chainId = some 0)
      ∧ w < 35 ∧ w ≠ 27 ∧ w ≠ 28)
    ∧ (∀ a sg, serializeTransactionEIP1559 a transaction sg
        ≠ .error (.invalidLegacyV w))
    ∧ (∀ a sg, serializeTransactionEIP2930 a transaction sg
        ≠ .error (.invalidLegacyV w))
    ∧ (∀ a sg, serializeTransactionEIP4844 a transaction sg
        ≠ .error (.invalidLegacyV w)) := by
  have hgetD : transaction.chainId.getD 0 = 0 ↔
      transaction.chainId = none ∨ transaction.chainId = some 0 := by
    rcases transaction.chainId with _ | c <;> simp
  refine ⟨?_, ?_, ?_, ?_⟩
  · constructor
    · intro he
      unfold serializeTransactionLegacy at he
      rcases ha : assert transaction with _ | e <;> simp only [ha] at he
      · rcases hsig : signature with _ | sig <;> simp only [hsig] at he
        · by_cases hc : transaction.chainId.getD 0 > 0 <;> simp [hc] at he
        · rcases hv : legacyV (transaction.chainId.getD 0) sig.v with e' | v' <;>
            simp only [hv] at he
          · obtain rfl : e' = SerializeError.invalidLegacyV w := by
              simpa using he
            have hiff := (legacyV_error_iff (transaction.chainId.getD 0) sig.v w).mp hv
            exact ⟨rfl, ⟨sig, rfl, hiff.2.1⟩, hgetD.mp hiff.1, by omega, by omega,
              by omega⟩
          · simp at he
      · simp at he
    · rintro ⟨ha, ⟨sig, hsig, hvw⟩, hc, hlt, h27, h28⟩
      have herr : legacyV (transaction.chainId.getD 0) sig.v
          = .error (.invalidLegacyV w) := by
        rw [legacyV_error_iff]
        exact ⟨hgetD.mpr hc, hvw, by omega, by omega, by omega⟩
      unfold serializeTransactionLegacy
      simp [ha, hsig, herr]
  · intro a sg he
    unfold serializeTransactionEIP1559 at he
    rcases ha : a transaction with _ | e <;> simp only [ha] at he <;> simp at he
  · intro a sg he
    unfold serializeTransactionEIP2930 at he
    rcases ha : a transaction with _ | e <;> simp only [ha] at he <;> simp at he
  · intro a sg he
    unfold serializeTransactionEIP4844 at he
    rcases ha : a transaction with _ | e <;> simp only [ha] at he <;> simp at he

/-- Witness for C3: a legacy record with no chain id and a signature whose
recovery value is `29` fails with the invalid-legacy-recovery-value error
carrying `29`. -/
theorem invalidLegacyV_characterization_witness :
    serializeTransactionLegacy (fun _ => none) {} (some { r := [1], s := [1], v := 29 })
      = .error (.invalidLegacyV 29) :=
  (invalidLegacyV_characterization (fun _ => none) {}
      (some { r := [1], s := [1], v := 29 }) 29).1.mpr
    ⟨rfl, ⟨{ r := [1], s := [1], v := 29 }, rfl, rfl⟩, Or.inl rfl,
      by norm_num, by norm_num, by norm_num⟩

/-- C4: the blob-carrying (type 3) serializer builds the base field list in
the order chain-id, nonce, max-priority-fee, max-fee, gas, recipient, value,
data, access list, max-fee-per-blob-gas, blob-versioned-hashes (a nested
list), signature tail; with raw blobs present the outer encoding is the
four-element list `[fields, blobs, commitments, proofs]`, otherwise the field
list alone, and either way the marker byte `0x03` is prepended. -/
theorem serializeTransactionEIP4844_encoding (assert : Transaction → Option String)
    (transaction : Transaction) (signature : Option Signature)
    (h : assert transaction = none) :
    (∀ blobs, transaction.blobs = some blobs →
      serializeTransactionEIP4844 assert transaction signature
        = .ok (0x03 :: toRlp (.list
            [.list ([.bytes (toHex (transaction.chainId.getD 0)),
              .bytes (numOrEmpty transaction.nonce),
              .bytes (numOrEmpty transaction.maxPriorityFeePerGas),
              .bytes (numOrEmpty transaction.maxFeePerGas),
              .bytes (numOrEmpty transaction.gas),
              .bytes (transaction.to.getD []),
              .bytes (numOrEmpty transaction.value),
              .bytes (transaction.data.getD []),
              serializeAccessList transaction.accessList,
              .bytes (numOrEmpty transaction.maxFeePerBlobGas),
              .list ((transaction.blobVersionedHashes.getD []).map RlpItem.bytes)] ++
              toYParitySignatureArray transaction signature),
             .list (blobs.map RlpItem.bytes),
             .list ((transaction.kzgCommitments.getD []).map RlpItem.bytes),
             .list ((transaction.kzgProofs.getD []).map RlpItem.bytes)])))
    ∧ (transaction.blobs = none →
      serializeTransactionEIP4844 assert transaction signature
        = .ok (0x03 :: toRlp (.list
            ([.bytes (toHex (transaction.chainId.getD 0)),
              .bytes (numOrEmpty transaction.nonce),
              .bytes (numOrEmpty transaction.maxPriorityFeePerGas),
              .bytes (numOrEmpty transaction.maxFeePerGas),
              .bytes (numOrEmpty transaction.gas),
              .bytes (transaction.to.getD []),
              .bytes (numOrEmpty transaction.value),
              .bytes (transaction.data.getD []),
              serializeAccessList transaction.accessList,
              .bytes (numOrEmpty transaction.maxFeePerBlobGas),
              .list ((transaction.blobVersionedHashes.getD []).map RlpItem.bytes)] ++
              toYParitySignatureArray transaction signature)))) := by
  constructor
  · intro blobs hb
    unfold serializeTransactionEIP4844
    simp [h, hb, concatHex]
  · intro hb
    unfold serializeTransactionEIP4844
    simp [h, hb, concatHex]

/-- Witness for C4: a concrete blob transaction with raw blobs present. -/
theorem serializeTransactionEIP4844_encoding_witness :
    serializeTransactionEIP4844 (fun _ => none)
        { chainId := some 1, blobVersionedHashes := some [[1, 2]],
          blobs := some [[7]], kzgCommitments := some [[8]],
          kzgProofs := some [[9]] } none
      = .ok (0x03 :: toRlp (.list
          [.list [.bytes (toHex 1), .bytes [], .bytes [], .bytes [],
            .bytes [], .bytes [], .bytes [], .bytes [],
            serializeAccessList none, .bytes [], .list [.bytes [1, 2]]],
           .list [.bytes [7]], .list [.bytes [8]], .list [.bytes [9]]])) := by
  have h := (serializeTransactionEIP4844_encoding (fun _ => none)
      { chainId := some 1, blobVersionedHashes := some [[1, 2]],
        blobs := some [[7]], kzgCommitments := some [[8]],
        kzgProofs := some [[9]] } none rfl).1 [[7]] rfl
  simpa [toYParitySignatureArray, sigSource, numOrEmpty] using h

/-- C5: the EIP-1559 serializer validates first; on success it RLP-encodes
the field list chain-id, nonce, max-priority-fee, max-fee, gas, recipient,
value, data, access list, signature tail, and prepends the marker `0x02`. -/
theorem serializeTransactionEIP1559_encoding (assert : Transaction → Option String)
    (transaction : Transaction) (signature : Option Signature) :
    (∀ e, assert transaction = some e →
      serializeTransactionEIP1559 assert transaction signature
        = .error (.assertionFailure e))
    ∧ (assert transaction = none →
      serializeTransactionEIP1559 assert transaction signature
        = .ok (0x02 :: toRlp (.list
            ([.bytes (toHex (transaction.chainId.getD 0)),
              .bytes (numOrEmpty transaction.nonce),
              .bytes (numOrEmpty transaction.maxPriorityFeePerGas),
              .bytes (numOrEmpty transaction.maxFeePerGas),
              .bytes (numOrEmpty transaction.gas),
              .bytes (transaction.to.getD []),
              .bytes (numOrEmpty transaction.value),
              .bytes (transaction.data.getD []),
              serializeAccessList transaction.accessList] ++
              toYParitySignatureArray transaction signature)))) := by
  constructor
  · intro e he
    unfold serializeTransactionEIP1559
    simp [he]
  · intro h
    unfold serializeTransactionEIP1559
    simp [h, concatHex]

/-- Witness for C5: a concrete signed EIP-1559 transaction. -/
theorem serializeTransactionEIP1559_encoding_witness :
    serializeTransactionEIP1559 (fun _ => none)
        { chainId := some 1, nonce := some 5, «to» := some [0xaa] }
        (some { r := some [0, 3], s := some [4], v := some 1 })
      = .ok (0x02 :: toRlp (.list
          [.bytes (toHex 1), .bytes (toHex 5), .bytes [], .bytes [],
           .bytes [], .bytes [0xaa], .bytes [], .bytes [],
           serializeAccessList none,
           .bytes (toHex 1), .bytes [3], .bytes [4]])) := by
  have h := (serializeTransactionEIP1559_encoding (fun _ => none)
      { chainId := some 1, nonce := some 5, «to» := some [0xaa] }
      (some { r := some [0, 3], s := some [4], v := some 1 })).2 rfl
  simpa [toYParitySignatureArray, sigSource, numOrEmpty, trim] using h

/-- C6: the EIP-2930 serializer validates first; on success it RLP-encodes
the field list chain-id, nonce, gas-price, gas, recipient, value, data,
access list, signature tail, and prepends the marker `0x01`. -/
theorem serializeTransactionEIP2930_encoding (assert : Transaction → Option String)
    (transaction : Transaction) (signature : Option Signature) :
    (∀ e, assert transaction = some e →
      serializeTransactionEIP2930 assert transaction signature
        = .error (.assertionFailure e))
    ∧ (assert transaction = none →
      serializeTransactionEIP2930 assert transaction signature
        = .ok (0x01 :: toRlp (.list
            ([.bytes (toHex (transaction.chainId.getD 0)),
              .bytes (numOrEmpty transaction.nonce),
              .bytes (numOrEmpty transaction.gasPrice),
              .bytes (numOrEmpty transaction.gas),
              .bytes (transaction.to.getD []),
              .bytes (numOrEmpty transaction.value),
              .bytes (transaction.data.getD []),
              serializeAccessList transaction.accessList] ++
              toYParitySignatureArray transaction signature)))) := by
  constructor
  · intro e he
    unfold serializeTransactionEIP2930
    simp [he]
  · intro h
    unfold serializeTransactionEIP2930
    simp [h, concatHex]

/-- Witness for C6: a concrete unsigned EIP-2930 transaction with a one-entry
access list. -/
theorem serializeTransactionEIP2930_encoding_witness :
    serializeTransactionEIP2930 (fun _ => none)
        { chainId := some 5, gasPrice := some 7,
          accessList := some [{ address := [0xbb], storageKeys := [[0xcc]] }] }
        none
      = .ok (0x01 :: toRlp (.list
          [.bytes (toHex 5), .bytes [], .bytes (toHex 7), .bytes [],
           .bytes [], .bytes [], .bytes [],
           .list [.list [.bytes [0xbb], .list [.bytes [0xcc]]]]])) := by
  have h := (serializeTransactionEIP2930_encoding (fun _ => none)
      { chainId := some 5, gasPrice := some 7,
        accessList := some [{ address := [0xbb], storageKeys := [[0xcc]] }] }
      none).2 rfl
  simpa [toYParitySignatureArray, sigSource, numOrEmpty, serializeAccessList] using h

/-- C7: the legacy serializer appends, after the six base fields, exactly
`[encoded-v, r, s]` (with `r` and `s` passed through untrimmed) when a
signature is supplied; exactly `[encoded-chain-id, '0x', '0x']` when no
signature is supplied and the chain id is positive; and nothing otherwise —
and in each case the result is the raw RLP encoding with no type-prefix
byte. -/
theorem serializeTransactionLegacy_structure (assert : Transaction → Option String)
    (transaction : Transaction) (signature : Option FullSignature)
    (h : assert transaction = none) :
    (∀ sig v, signature = some sig →
      legacyV (transaction.chainId.getD 0) sig.v = .ok v →
      serializeTransactionLegacy assert transaction signature
        = .ok (toRlp (.list
            [.bytes (numOrEmpty transaction.nonce),
             .bytes (numOrEmpty transaction.gasPrice),
             .bytes (numOrEmpty transaction.gas),
             .bytes (transaction.to.getD []),
             .bytes (numOrEmpty transaction.value),
             .bytes (transaction.data.getD []),
             .bytes (toHexI v), .bytes sig.r, .bytes sig.s])))
    ∧ (signature = none → 0 < transaction.chainId.getD 0 →
      serializeTransactionLegacy assert transaction signature
        = .ok (toRlp (.list
            [.bytes (numOrEmpty transaction.nonce),
             .bytes (numOrEmpty transaction.gasPrice),
             .bytes (numOrEmpty transaction.gas),
             .bytes (transaction.to.getD []),
             .bytes (numOrEmpty transaction.value),
             .bytes (transaction.data.getD []),
             .bytes (toHex (transaction.chainId.getD 0)), .bytes [], .bytes []])))
    ∧ (signature = none → transaction.chainId.getD 0 = 0 →
      serializeTransactionLegacy assert transaction signature
        = .ok (toRlp (.list
            [.bytes (numOrEmpty transaction.nonce),
             .bytes (numOrEmpty transaction.gasPrice),
             .bytes (numOrEmpty transaction.gas),
             .bytes (transaction.to.getD []),
             .bytes (numOrEmpty transaction.value),
             .bytes (transaction.data.getD [])]))) := by
  refine ⟨?_, ?_, ?_⟩
  · intro sig v hsig hv
    unfold serializeTransactionLegacy
    simp [h, hsig, hv]
  · intro hsig hc
    unfold serializeTransactionLegacy
    simp [h, hsig, hc]
  · intro hsig hc
    unfold serializeTransactionLegacy
    simp [h, hsig, hc]

/-- Witness for C7: the spec's unsigned-with-`chainId = 5` case — the field
list ends with `[encoded-chain-id, '0x', '0x']` and carries no marker byte. -/
theorem serializeTransactionLegacy_structure_witness :
    serializeTransactionLegacy (fun _ => none) { chainId := some 5 } none
      = .ok (toRlp (.list
          [.bytes [], .bytes [], .bytes [], .bytes [], .bytes [], .bytes [],
           .bytes (toHex 5), .bytes [], .bytes []])) := by
  have h := (serializeTransactionLegacy_structure (fun _ => none)
      { chainId := some 5 } none rfl).2.1 rfl (by norm_num)
  simpa [numOrEmpty] using h

/-- C8: for every variant and every optional numeric field it encodes, a
record carrying the field as `0` serializes byte-for-byte like the record
with the field absent (whenever the assertion collaborator does not tell the
two records apart); and for every variant, an absent recipient or absent
payload data serializes like the explicit `'0x'` placeholder value, so the
field list keeps its fixed arity. -/
theorem optional_field_defaults (aL a29 a15 a48 : Transaction → Option String)
    (t : Transaction) (sgF : Option FullSignature) (sg : Option Signature) :
    ((aL { t with nonce := some 0 } = aL { t with nonce := none }) →
      serializeTransactionLegacy aL { t with nonce := some 0 } sgF
        = serializeTransactionLegacy aL { t with nonce := none } sgF)
    ∧ ((aL { t with gasPrice := some 0 } = aL { t with gasPrice := none }) →
      serializeTransactionLegacy aL { t with gasPrice := some 0 } sgF
        = serializeTransactionLegacy aL { t with gasPrice := none } sgF)
    ∧ ((aL { t with gas := some 0 } = aL { t with gas := none }) →
      serializeTransactionLegacy aL { t with gas := some 0 } sgF
        = serializeTransactionLegacy aL { t with gas := none } sgF)
    ∧ ((aL { t with value := some 0 } = aL { t with value := none }) →
      serializeTransactionLegacy aL { t with value := some 0 } sgF
        = serializeTransactionLegacy aL { t with value := none } sgF)
    ∧ ((aL { t with «to» := none } = aL { t with «to» := some [] }) →
      serializeTransactionLegacy aL { t with «to» := none } sgF
        = serializeTransactionLegacy aL { t with «to» := some [] } sgF)
    ∧ ((aL { t with data := none } = aL { t with data := some [] }) →
      serializeTransactionLegacy aL { t with data := none } sgF
        = serializeTransactionLegacy aL { t with data := some [] } sgF)
    ∧ ((a29 { t with nonce := some 0 } = a29 { t with nonce := none }) →
      serializeTransactionEIP2930 a29 { t with nonce := some 0 } sg
        = serializeTransactionEIP2930 a29 { t with nonce := none } sg)
    ∧ ((a29 { t with gasPrice := some 0 } = a29 { t with gasPrice := none }) →
      serializeTransactionEIP2930 a29 { t with gasPrice := some 0 } sg
        = serializeTransactionEIP2930 a29 { t with gasPrice := none } sg)
    ∧ ((a29 { t with gas := some 0 } = a29 { t with gas := none }) →
      serializeTransactionEIP2930 a29 { t with gas := some 0 } sg
        = serializeTransactionEIP2930 a29 { t with gas := none } sg)
    ∧ ((a29 { t with value := some 0 } = a29 { t with value := none }) →
      serializeTransactionEIP2930 a29 { t with value := some 0 } sg
        = serializeTransactionEIP2930 a29 { t with value := none } sg)
    ∧ ((a29 { t with «to» := none } = a29 { t with «to» := some [] }) →
      serializeTransactionEIP2930 a29 { t with «to» := none } sg
        = serializeTransactionEIP2930 a29 { t with «to» := some [] } sg)
    ∧ ((a29 { t with data := none } = a29 { t with data := some [] }) →
      serializeTransactionEIP2930 a29 { t with data := none } sg
        = serializeTransactionEIP2930 a29 { t with data := some [] } sg)
    ∧ ((a15 { t with nonce := some 0 } = a15 { t with nonce := none }) →
      serializeTransactionEIP1559 a15 { t with nonce := some 0 } sg
        = serializeTransactionEIP1559 a15 { t with nonce := none } sg)
    ∧ ((a15 { t with maxPriorityFeePerGas := some 0 }
          = a15 { t with maxPriorityFeePerGas := none }) →
      serializeTransactionEIP1559 a15 { t with maxPriorityFeePerGas := some 0 } sg
        = serializeTransactionEIP1559 a15 { t with maxPriorityFeePerGas := none } sg)
    ∧ ((a15 { t with maxFeePerGas := some 0 } = a15 { t with maxFeePerGas := none }) →
      serializeTransactionEIP1559 a15 { t with maxFeePerGas := some 0 } sg
        = serializeTransactionEIP1559 a15 { t with maxFeePerGas := none } sg)
    ∧ ((a15 { t with gas := some 0 } = a15 { t with gas := none }) →
      serializeTransactionEIP1559 a15 { t with gas := some 0 } sg
        = serializeTransactionEIP1559 a15 { t with gas := none } sg)
    ∧ ((a15 { t with value := some 0 } = a15 { t with value := none }) →
      serializeTransactionEIP1559 a15 { t with value := some 0 } sg
        = serializeTransactionEIP1559 a15 { t with value := none } sg)
    ∧ ((a15 { t with «to» := none } = a15 { t with «to» := some [] }) →
      serializeTransactionEIP1559 a15 { t with «to» := none } sg
        = serializeTransactionEIP1559 a15 { t with «to» := some [] } sg)
    ∧ ((a15 { t with data := none } = a15 { t with data := some [] }) →
      serializeTransactionEIP1559 a15 { t with data := none } sg
        = serializeTransactionEIP1559 a15 { t with data := some [] } sg)
    ∧ ((a48 { t with nonce := some 0 } = a48 { t with nonce := none }) →
      serializeTransactionEIP4844 a48 { t with nonce := some 0 } sg
        = serializeTransactionEIP4844 a48 { t with nonce := none } sg)
    ∧ ((a48 { t with maxPriorityFeePerGas := some 0 }
          = a48 { t with maxPriorityFeePerGas := none }) →
      serializeTransactionEIP4844 a48 { t with maxPriorityFeePerGas := some 0 } sg
        = serializeTransactionEIP4844 a48 { t with maxPriorityFeePerGas := none } sg)
    ∧ ((a48 { t with maxFeePerGas := some 0 } = a48 { t with maxFeePerGas := none }) →
      serializeTransactionEIP4844 a48 { t with maxFeePerGas := some 0 } sg
        = serializeTransactionEIP4844 a48 { t with maxFeePerGas := none } sg)
    ∧ ((a48 { t with gas := some 0 } = a48 { t with gas := none }) →
      serializeTransactionEIP4844 a48 { t with gas := some 0 } sg
        = serializeTransactionEIP4844 a48 { t with gas := none } sg)
    ∧ ((a48 { t with value := some 0 } = a48 { t with value := none }) →
      serializeTransactionEIP4844 a48 { t with value := some 0 } sg
        = serializeTransactionEIP4844 a48 { t with value := none } sg)
    ∧ ((a48 { t with maxFeePerBlobGas := some 0 }
          = a48 { t with maxFeePerBlobGas := none }) →
      serializeTransactionEIP4844 a48 { t with maxFeePerBlobGas := some 0 } sg
        = serializeTransactionEIP4844 a48 { t with maxFeePerBlobGas := none } sg)
    ∧ ((a48 { t with «to» := none } = a48 { t with «to» := some [] }) →
      serializeTransactionEIP4844 a48 { t with «to» := none } sg
        = serializeTransactionEIP4844 a48 { t with «to» := some [] } sg)
    ∧ ((a48 { t with data := none } = a48 { t with data := some [] }) →
      serializeTransactionEIP4844 a48 { t with data := none } sg
        = serializeTransactionEIP4844 a48 { t with data := some [] } sg) := by
  refine ⟨?_, ?_, ?_, ?_, ?_, ?_, ?_, ?_, ?_, ?_, ?_, ?_, ?_, ?_, ?_, ?_, ?_,
    ?_, ?_, ?_, ?_, ?_, ?_, ?_, ?_, ?_, ?_⟩ <;> intro h <;>
    first
    | (unfold serializeTransactionLegacy; rw [h]; try rfl)
    | (unfold serializeTransactionEIP2930; rw [h]; try rfl)
    | (unfold serializeTransactionEIP1559; rw [h]; try rfl)
    | (unfold serializeTransactionEIP4844; rw [h]; try rfl)

/-- Witness for C8: a legacy record with `nonce = 0` serializes like one with
the nonce absent. -/
theorem optional_field_defaults_witness :
    serializeTransactionLegacy (fun _ => none) { nonce := some 0 } none
      = serializeTransactionLegacy (fun _ => none) {} none :=
  (optional_field_defaults (fun _ => none) (fun _ => none) (fun _ => none)
    (fun _ => none) {} none none).1 rfl

/-- C9: an explicit signature argument entirely replaces the record as the
source of `r`, `s`, `v`, `yParity`: for a record whose own fields carry a
complete signature, handing the typed-variant serializers an explicit
signature with `r` undefined yields an empty signature tail — an unsigned
serialization — even though the record's own tail would be non-empty. -/
theorem explicit_signature_overrides (a15 a29 a48 : Transaction → Option String)
    (transaction : Transaction) (sg : Signature) (hr : sg.r = none)
    (hrec : transaction.r ≠ none ∧ transaction.s ≠ none ∧
      (transaction.v ≠ none ∨ transaction.yParity ≠ none)) :
    toYParitySignatureArray transaction (some sg) = []
    ∧ toYParitySignatureArray transaction none ≠ []
    ∧ (a15 transaction = none →
      serializeTransactionEIP1559 a15 transaction (some sg)
        = .ok (0x02 :: toRlp (.list
            [.bytes (toHex (transaction.chainId.getD 0)),
             .bytes (numOrEmpty transaction.nonce),
             .bytes (numOrEmpty transaction.maxPriorityFeePerGas),
             .bytes (numOrEmpty transaction.maxFeePerGas),
             .bytes (numOrEmpty transaction.gas),
             .bytes (transaction.to.getD []),
             .bytes (numOrEmpty transaction.value),
             .bytes (transaction.data.getD []),
             serializeAccessList transaction.accessList])))
    ∧ (a29 transaction = none →
      serializeTransactionEIP2930 a29 transaction (some sg)
        = .ok (0x01 :: toRlp (.list
            [.bytes (toHex (transaction.chainId.getD 0)),
             .bytes (numOrEmpty transaction.nonce),
             .bytes (numOrEmpty transaction.gasPrice),
             .bytes (numOrEmpty transaction.gas),
             .bytes (transaction.to.getD []),
             .bytes (numOrEmpty transaction.value),
             .bytes (transaction.data.getD []),
             serializeAccessList transaction.accessList])))
    ∧ (a48 transaction = none → transaction.blobs = none →
      serializeTransactionEIP4844 a48 transaction (some sg)
        = .ok (0x03 :: toRlp (.list
            [.bytes (toHex (transaction.chainId.getD 0)),
             .bytes (numOrEmpty transaction.nonce),
             .bytes (numOrEmpty transaction.maxPriorityFeePerGas),
             .bytes (numOrEmpty transaction.maxFeePerGas),
             .bytes (numOrEmpty transaction.gas),
             .bytes (transaction.to.getD []),
             .bytes (numOrEmpty transaction.value),
             .bytes (transaction.data.getD []),
             serializeAccessList transaction.accessList,
             .bytes (numOrEmpty transaction.maxFeePerBlobGas),
             .list ((transaction.blobVersionedHashes.getD []).map RlpItem.bytes)]))) := by
  have htail : toYParitySignatureArray transaction (some sg) = [] := by
    unfold toYParitySignatureArray sigSource
    simp [hr]
  refine ⟨htail, ?_, ?_, ?_, ?_⟩
  · obtain ⟨h1, h2, h3⟩ := hrec
    unfold toYParitySignatureArray sigSource
    rcases hrx : transaction.r with _ | r
    · exact absurd hrx h1
    rcases hsx : transaction.s with _ | s
    · exact absurd hsx h2
    simp only [hrx, hsx]
    rw [if_neg]
    · simp
    · rintro ⟨hv, hp⟩
      rcases h3 with h | h
      · exact h hv
      · exact h hp
  · intro ha
    unfold serializeTransactionEIP1559
    simp [ha, htail, concatHex]
  · intro ha
    unfold serializeTransactionEIP2930
    simp [ha, htail, concatHex]
  · intro ha hb
    unfold serializeTransactionEIP4844
    simp [ha, hb, htail, concatHex]

/-- Witness for C9: a record that carries a full signature (`r`, `s`, `v`)
serialized with an explicit all-absent signature object yields the unsigned
EIP-1559 serialization. -/
theorem explicit_signature_overrides_witness :
    serializeTransactionEIP1559 (fun _ => none)
        { chainId := some 1, r := some [3], s := some [4], v := some 1 }
        (some {})
      = .ok (0x02 :: toRlp (.list
          [.bytes (toHex 1), .bytes [], .bytes [], .bytes [], .bytes [],
           .bytes [], .bytes [], .bytes [], serializeAccessList none])) := by
  have h := (explicit_signature_overrides (fun _ => none) (fun _ => none)
      (fun _ => none)
      { chainId := some 1, r := some [3], s := some [4], v := some 1 }
      {} rfl ⟨by simp, by simp, Or.inl (by simp)⟩).2.2.1 rfl
  simpa [numOrEmpty] using h

/-- C10: whenever the collaborating inference function resolves the record to
any type other than `"eip1559"`, `"eip2930"` or `"eip4844"` — including
unknown or future type strings — the dispatcher encodes the record with the
legacy serializer; the dispatch cascade has no failing branch of its own. -/
theorem serializeTransaction_dispatch (getType : Transaction → String)
    (asserts : Asserts) (transaction : Transaction)
    (signature : Option FullSignature)
    (h1 : getType transaction ≠ "eip1559")
    (h2 : getType transaction ≠ "eip2930")
    (h3 : getType transaction ≠ "eip4844") :
    serializeTransaction getType asserts transaction signature
      = serializeTransactionLegacy asserts.legacy transaction signature := by
  unfold serializeTransaction
  simp [h1, h2, h3]

/-- Witness for C10: a record resolved to the unknown type `"eip9999"` is
encoded by the legacy serializer. -/
theorem serializeTransaction_dispatch_witness :
    serializeTransaction (fun _ => "eip9999")
        { eip1559 := fun _ => none, eip2930 := fun _ => none,
          eip4844 := fun _ => none, legacy := fun _ => none } {} none
      = serializeTransactionLegacy (fun _ => none) {} none :=
  serializeTransaction_dispatch (fun _ => "eip9999")
    { eip1559 := fun _ => none, eip2930 := fun _ => none,
      eip4844 := fun _ => none, legacy := fun _ => none } {} none
    (by simp) (by simp) (by simp)

end Viem
